import Mathlib

/-!
Verification development for the hapi-audit-rest plugin (version 1.8.0).

The plugin intercepts HTTP requests at two extension points (onPreHandler,
onPreResponse), reconstructs before/after state of mutated resources, and
emits structured audit records.  We embed the plugin body, the AuditMutation
and AuditAction record constructors, and the helper utilities as pure Lean
functions; the two shared mutable maps (the pre-state cache `oldValsCache`
and the pending-record store `auditValues`) become explicit state threaded
through the two phase functions.  The internal baseline fetch performed via
`server.inject` is modelled by an environment function from paths to the
entity state readable at that path; the list of paths fetched during a phase
is returned as an observable trace.
-/

namespace HapiAuditRest

/-- Flat JSON-like object: an association list from field names to string
values (the spec describes the diff engine as operating on flat value maps). -/
abbrev Obj := List (String × String)

/-- Request or response bodies as the plugin observes them: absent (null),
a non-materializable stream, or a concrete flat object. -/
inductive Payload where
  | null : Payload
  | stream : Payload
  | obj : Obj → Payload
deriving DecidableEq, Repr

/-- Values that can appear in an emitted record body: a structured object or
a raw (serialized, unparsed) body string. -/
inductive Value where
  | obj : Obj → Value
  | str : String → Value
  | null : Value
  | stream : Value
deriving DecidableEq, Repr

/-- View of a payload as a record-body value. -/
def payloadToValue : Payload → Value
  | Payload.null => Value.null
  | Payload.stream => Value.stream
  | Payload.obj o => Value.obj o

/-- JSON-style serialization of a flat object, with literal braces escaped;
used to model the raw string body returned by the internal inject call. -/
def serializeObj (o : Obj) : String :=
  "\x7b" ++ String.intercalate "," (o.map (fun p => "\"" ++ p.1 ++ "\":\"" ++ p.2 ++ "\"")) ++ "\x7d"

/-- Raw body text of an internal read: the serialization of the fetched
object, or the text null when the read yields no parseable object.
JSON.parse of this raw text gives back exactly the Option Obj. -/
def rawOf : Option Obj → String
  | some o => serializeObj o
  | none => "null"

/-- Map update with overwrite semantics (Map.prototype.set). -/
def alPut (m : List (String × α)) (k : String) (v : α) : List (String × α) :=
  (k, v) :: m.filter (fun p => p.1 ≠ k)

/-- Map lookup (Map.prototype.get), absent modelled as none. -/
def alGet (m : List (String × α)) (k : String) : Option α :=
  m.lookup k

/-- Map removal (Map.prototype.delete). -/
def alDel (m : List (String × α)) (k : String) : List (String × α) :=
  m.filter (fun p => p.1 ≠ k)

/-- Lowercasing of a string, written on the character list so that it
reduces inside the kernel (String.toLowerCase of the DTO). -/
def lowerStr (s : String) : String := ⟨s.data.map Char.toLower⟩

/-- Uppercasing of a string, written on the character list so that it
reduces inside the kernel (String.toUpperCase of the read branch). -/
def upperStr (s : String) : String := ⟨s.data.map Char.toUpper⟩

/-- Whether s starts with p, written on the character lists so that it
reduces inside the kernel (String.startsWith of the default isAuditable). -/
def strStartsWith (s p : String) : Bool := decide (s.data.take p.data.length = p.data)

/-- Splitting a character list on a separator (String.split helper). -/
def splitOnChar (sep : Char) : List Char → List (List Char)
  | [] => [[]]
  | c :: cs =>
      let r := splitOnChar sep cs
      if c = sep then [] :: r
      else match r with
        | [] => [[c]]
        | h :: t => (c :: h) :: t

/-- The slash-separated segments of a path (path.split of getEntity). -/
def pathSegs (s : String) : List String := (splitOnChar '/' s.data).map (fun l => ⟨l⟩)

/-- JavaScript truthiness for an optional string: present and non-empty. -/
def truthy : Option String → Bool
  | some s => !s.isEmpty
  | none => false

/-- JavaScript a-or-b on optional strings: the first when truthy, else the
second. -/
def orTruthy (a b : Option String) : Option String :=
  if truthy a then a else b

/-- Per-route audit configuration (request.route.settings.plugins entry). -/
structure RouteAuditing where
  disabled : Bool
  action : Option String
  entity : Option String
  entityKeys : Option (List String)
  idParam : Option String
  getPath : Option String
  skipDiff : Option (List String)
deriving DecidableEq, Repr

/-- The empty route configuration used when a route declares nothing. -/
def defaultRouteAuditing : RouteAuditing :=
  { disabled := false, action := none, entity := none, entityKeys := none,
    idParam := none, getPath := none, skipDiff := none }

/-- The request fields the two phase handlers read.  The username is the
already-resolved session username (session establishment is out of scope);
injected records whether the request carries the marker header set by the
internal baseline fetch. -/
structure Request where
  pathname : String
  method : String
  params : List (String × String)
  payload : Payload
  query : Obj
  injected : Bool
  username : Option String
  auditing : Option RouteAuditing
deriving DecidableEq, Repr

/-- The response fields the post-response handler reads. -/
structure ResponseInfo where
  statusCode : Nat
  source : Payload
deriving DecidableEq, Repr

/-- Body of a Mutation record (src/dtos/AuditMutationBody.js): original and
new values default to the empty object when not supplied.  The wall-clock
timestamp field is omitted from the embedding. -/
structure AuditMutationBody where
  entity : Option String
  entityId : Option String
  action : Option String
  username : Option String
  originalValues : Value
  newValues : Value
deriving DecidableEq, Repr

/-- Modelled from the spec: the missing AuditActionBody DTO, carrying the
body schema fields of an Action record from section 6. -/
structure AuditActionBody where
  entity : Option String
  entityId : Option String
  action : Option String
  username : Option String
  data : Value
deriving DecidableEq, Repr

/-- The two record-body variants of the emitted-record tagged union. -/
inductive RecBody where
  | mutation : AuditMutationBody → RecBody
  | action : AuditActionBody → RecBody
deriving DecidableEq, Repr

/-- An emitted audit record: application tag, type tag, body, outcome. -/
structure AuditRecord where
  application : Option String
  type : Option String
  body : RecBody
  outcome : String
deriving DecidableEq, Repr

/-- Whether a record is a Mutation record. -/
def AuditRecord.isMutation (r : AuditRecord) : Bool :=
  match r.body with
  | RecBody.mutation _ => true
  | RecBody.action _ => false

/-- Whether a record is an Action record. -/
def AuditRecord.isAction (r : AuditRecord) : Bool :=
  match r.body with
  | RecBody.mutation _ => false
  | RecBody.action _ => true

/-- Original values of a mutation record body, when the record is one. -/
def AuditRecord.originalValues (r : AuditRecord) : Option Value :=
  match r.body with
  | RecBody.mutation b => some b.originalValues
  | RecBody.action _ => none

/-- New values of a mutation record body, when the record is one. -/
def AuditRecord.newValues (r : AuditRecord) : Option Value :=
  match r.body with
  | RecBody.mutation b => some b.newValues
  | RecBody.action _ => none

/-- Action field of the record body. -/
def AuditRecord.bodyAction (r : AuditRecord) : Option String :=
  match r.body with
  | RecBody.mutation b => b.action
  | RecBody.action b => b.action

/-- Modelled from the spec: the missing MUTATION_ACTION enum entry for
updates (section 4.8, PUT derives UPDATE). -/
def MUTATION_UPDATE : String := "UPDATE"

/-- Modelled from the spec: the missing MUTATION_ACTION enum entry for
creates (section 4.8, POST derives CREATE). -/
def MUTATION_CREATE : String := "CREATE"

/-- Modelled from the spec: the missing MUTATION_ACTION enum entry for
deletes (section 4.8, DELETE derives DELETE). -/
def MUTATION_DELETE : String := "DELETE"

/-- Modelled from the spec: the missing EVENT_TYPE enum MUTATION tag
(section 6, type MUTATION or ACTION). -/
def EVENT_TYPE_MUTATION : String := "MUTATION"

/-- Modelled from the spec: the missing AUDIT_TYPE enum SEARCH tag
(section 4.8, reads default the action to SEARCH). -/
def AUDIT_TYPE_SEARCH : String := "SEARCH"

/-- Modelled from the spec: the missing AUDIT_OUTCOME enum SUCCESS tag
(section 3, outcome defaults to SUCCESS). -/
def AUDIT_OUTCOME_SUCCESS : String := "SUCCESS"

/-- Embedding of the AuditMutation constructor (src/dtos/AuditMutation.js):
when no truthy action override is supplied the action is derived from the
lowercased HTTP method, and the body value fields default to empty objects. -/
def mkAuditMutation (method : String) (action : Option String)
    (entity entityId username application : Option String)
    (originalValues newValues : Option Value) : AuditRecord :=
  let httpAction : Option String :=
    if !(truthy action) && lowerStr method = "put" then some MUTATION_UPDATE
    else if !(truthy action) && lowerStr method = "post" then some MUTATION_CREATE
    else if !(truthy action) && lowerStr method = "delete" then some MUTATION_DELETE
    else none
  { application := application,
    type := some EVENT_TYPE_MUTATION,
    body := RecBody.mutation
      { entity := entity, entityId := entityId,
        action := orTruthy action httpAction, username := username,
        originalValues := originalValues.getD (Value.obj []),
        newValues := newValues.getD (Value.obj []) },
    outcome := AUDIT_OUTCOME_SUCCESS }

/-- Embedding of the AuditAction constructor: the type tag is taken directly
from the input (absent when not supplied) and data defaults to the empty
object. -/
def mkAuditAction (type : Option String)
    (entity entityId action username application : Option String)
    (data : Option Value) : AuditRecord :=
  { application := application,
    type := type,
    body := RecBody.action
      { entity := entity, entityId := entityId, action := action,
        username := username, data := data.getD (Value.obj []) },
    outcome := AUDIT_OUTCOME_SUCCESS }

/-- Modelled from the spec: the missing utils.js predicate for reads
(GET requests). -/
def isRead (method : String) : Bool := method = "get"

/-- Modelled from the spec: the missing utils.js predicate for creates
(POST requests, section 4.8 POST derives CREATE). -/
def isCreate (method : String) : Bool := method = "post"

/-- Modelled from the spec: the missing utils.js predicate for updates
(PUT requests, section 4.8 PUT derives UPDATE). -/
def isUpdate (method : String) : Bool := method = "put"

/-- Modelled from the spec: the missing utils.js predicate for deletes
(DELETE requests). -/
def isDelete (method : String) : Bool := method = "delete"

/-- Modelled from the spec: the missing utils.js isDisabled predicate on the
route audit configuration (section 4.1, auditing disabled on the route). -/
def isDisabled (auditing : RouteAuditing) : Bool := auditing.disabled

/-- Modelled from the spec: the missing utils.js isLoggedIn predicate, true
when an authenticated username is present (section 4.1). -/
def isLoggedIn : Option String → Bool := truthy

/-- Modelled from the spec: the missing utils.js getUser helper reading the
already-resolved session username from the request. -/
def getUser (req : Request) : Option String := req.username

/-- Modelled from the spec: the missing utils.js isStream predicate on a
body (non-materializable stream). -/
def isStream : Payload → Bool
  | Payload.stream => true
  | _ => false

/-- Modelled from the spec: the missing utils.js clone helper, a deep copy
of a materializable body; pure in the embedding, and absent bodies carry no
object. -/
def clonePayload : Payload → Option Obj
  | Payload.obj o => some o
  | _ => none

/-- Modelled from the spec: the missing utils.js getEntity helper, the
configured entity name when truthy, else the entity segment of the path
(the section 8 example derives entity users from the path /api/users/42). -/
def getEntity (entity : Option String) (pathname : String) : Option String :=
  orTruthy entity ((pathSegs pathname).get? 2)

/-- Modelled from the spec: the missing utils.js toEndpoint helper building
the canonical (verb, path) key, preferring an explicit get path when given. -/
def toEndpoint (method : String) (pathname : String) (getPath : Option String) : String :=
  method ++ ":" ++ getPath.getD pathname

/-- Modelled from the spec: the missing utils.js isSuccessfulResponse
predicate, any 2xx status code (section 6). -/
def isSuccessfulResponse (statusCode : Nat) : Bool :=
  200 ≤ statusCode && statusCode < 300

/-- Modelled from the spec: the missing utils.js getEntityId helper
(section 3): prefers explicit key fields from entityKeys extracted out of
the relevant data object, falls back to the id parameter, else absent. -/
def getEntityId (entityKeys : Option (List String)) (id : Option String)
    (data : Option Value) : Option String :=
  match entityKeys, data with
  | some keys, some (Value.obj o) =>
      let vals := keys.filterMap (fun k => alGet o k)
      if vals.isEmpty then id else some (String.intercalate "-" vals)
  | _, _ => id

/-- Modelled from the spec: the missing utils.js gotResponseData predicate,
true when the response source is neither null nor undefined. -/
def gotResponseData : Payload → Bool
  | Payload.null => false
  | _ => true

/-- Modelled from the spec: the missing utils.js shouldAuditRequest
predicate (section 4.3): publish unless the request is an internally
injected read or GET auditing is globally disabled. -/
def shouldAuditRequest (method : String) (auditGetRequests : Bool)
    (injected : Bool) : Bool :=
  if isRead method then auditGetRequests && !injected else true

/-- Modelled from the spec: the missing utils.js removeProps helper
(section 4.4): removes the skip-listed field names from an object. -/
def removeKeys (o : Obj) (skip : List String) : Obj :=
  o.filter (fun p => !skip.contains p.1)

/-- Lifting of removeKeys to an absent object and an absent skip list (the
post-response phase passes the skip list through without a default). -/
def removeKeysO (o : Option Obj) (skip : Option (List String)) : Option Obj :=
  o.map (fun x => removeKeys x (skip.getD []))

/-- Field access on a body (payload-bracket-idParam); absent and streamed
bodies yield nothing. -/
def payloadLookup (p : Payload) (k : String) : Option String :=
  match p with
  | Payload.obj o => alGet o k
  | _ => none

/-- The global plugin options the two phase handlers consult.  diffFunc is
the pluggable diff strategy applied after skip-field removal; it receives
the baseline and the new state (either possibly absent) and returns the
(originalValues, newValues) pair. -/
structure Options where
  auditGetRequests : Bool
  disableCache : Bool
  clientId : String
  isAuditable : String → String → Bool
  diffFunc : Option Obj → Option Obj → Option Obj × Option Obj

/-- The plugin defaults from the register-function destructuring: GET
auditing on, cache on, client tag client-app, auditable paths start with
/api, and the default diffFunc ignores its inputs and returns two empty
objects. -/
def defaultOptions : Options :=
  { auditGetRequests := true,
    disableCache := false,
    clientId := "client-app",
    isAuditable := fun path _ => strStartsWith path "/api",
    diffFunc := fun _ _ => (some [], some []) }

/-- The identity pass-through diff strategy (section 4.4 allows it). -/
def passThroughDiff : Option Obj → Option Obj → Option Obj × Option Obj :=
  fun a b => (a, b)

/-- The environment providing the result of the internal baseline fetch:
for a path, the object state readable by a GET of it, or none when the body
parses to null (aborting the audit attempt with a data-unavailable error). -/
structure Env where
  fetch : String → Option Obj

/-- The two shared mutable maps of the plugin: the pre-state cache
oldValsCache keyed by canonical read endpoint, and the pending-record store
auditValues keyed by (verb, path) endpoint. -/
structure PluginState where
  oldValsCache : List (String × Obj)
  auditValues : List (String × AuditRecord)
deriving DecidableEq, Repr

/-- The state at plugin registration: both maps empty. -/
def initialState : PluginState :=
  { oldValsCache := [], auditValues := [] }

/-- Observable result of the pre-handler phase: the new shared state, the
paths fetched through the internal baseline fetcher, the message logged by
the catch-all error handler when the body threw, and whether the handler
returned continue to the framework. -/
structure PreHandlerResult where
  state : PluginState
  fetches : List String
  logged : Option String
  cont : Bool
deriving DecidableEq, Repr

/-- Observable result of the post-response phase: additionally the record
published through the event emitter, when one was. -/
structure PostResponseResult where
  state : PluginState
  emitted : Option AuditRecord
  fetches : List String
  logged : Option String
  cont : Bool
deriving DecidableEq, Repr

/-- Embedding of the createMutation utility call as used by the plugin
body: the client id becomes the application tag of an AuditMutation. -/
def createMutation (method : String) (clientId : String)
    (entity entityId username : Option String)
    (originalValues newValues : Option Value) : AuditRecord :=
  mkAuditMutation method none entity entityId username (some clientId)
    originalValues newValues

/-- Embedding of the createAction utility call as used by the plugin body:
the client id becomes the application tag of an AuditAction. -/
def createAction (type : Option String) (clientId : String)
    (entity entityId action username : Option String)
    (data : Option Value) : AuditRecord :=
  mkAuditAction type entity entityId action username (some clientId) data

/-- Mutation-record construction shared by the two cache branches of the
pre-handler update path (lines 169-181 of the plugin body): remove the
skip-listed fields from baseline and new state, apply the diff strategy,
and build the record; the entity id is extracted from the already
skip-filtered new state, exactly as the mutated-in-place object is used at
the call site. -/
def buildUpdateRecord (opts : Options) (req : Request) (auditing : RouteAuditing)
    (idVal : Option String) (skipDiff : List String)
    (oldVals : Obj) (newVals : Option Obj) : AuditRecord :=
  let oldV := removeKeys oldVals skipDiff
  let newV := newVals.map (fun x => removeKeys x skipDiff)
  let d := opts.diffFunc (some oldV) newV
  createMutation req.method opts.clientId (getEntity auditing.entity req.pathname)
    (getEntityId auditing.entityKeys idVal (newV.map Value.obj))
    (getUser req) (d.1.map Value.obj) (d.2.map Value.obj)

/-- Embedding of the onPreHandler extension handler (plugin body lines
91-205).  Skips when the route disables auditing, no username is resolved,
the path is not auditable, or the route declares a custom action.  For
updates it obtains a baseline from the cache (unless disabled) or the
internal fetch, evicts a consumed cache entry, re-caches the baseline for
streamed (proxied) bodies, and otherwise builds and stores a pending
Mutation record; for deletes it always fetches and stores a pending record
whose original values are the raw (unparsed) fetched body.  The catch-all
turns the data-unavailable throw into a logged message; every path returns
continue. -/
def onPreHandler (opts : Options) (env : Env) (st : PluginState)
    (req : Request) : PreHandlerResult :=
  let auditing := req.auditing.getD defaultRouteAuditing
  let idParam := auditing.idParam.getD "id"
  let skipDiff := auditing.skipDiff.getD []
  let username := getUser req
  if isDisabled auditing || !(isLoggedIn username) ||
      !(opts.isAuditable req.pathname req.method) || truthy auditing.action then
    { state := st, fetches := [], logged := none, cont := true }
  else
    let idVal := alGet req.params idParam
    let getEndpoint := toEndpoint "get" req.pathname auditing.getPath
    let routeEndpoint := toEndpoint req.method req.pathname none
    if isUpdate req.method then
      let isProxy := isStream req.payload
      let newVals := clonePayload req.payload
      let cached := if opts.disableCache then none else alGet st.oldValsCache getEndpoint
      match cached with
      | none =>
          match env.fetch req.pathname with
          | none =>
              { state := st, fetches := [req.pathname],
                logged := some ("Cannot get data before update on " ++ routeEndpoint),
                cont := true }
          | some oldVals =>
              if isProxy then
                { state := { st with oldValsCache := alPut st.oldValsCache getEndpoint oldVals },
                  fetches := [req.pathname], logged := none, cont := true }
              else
                let r := buildUpdateRecord opts req auditing idVal skipDiff oldVals newVals
                { state := { st with auditValues := alPut st.auditValues routeEndpoint r },
                  fetches := [req.pathname], logged := none, cont := true }
      | some oldVals =>
          let st1 : PluginState := { st with oldValsCache := alDel st.oldValsCache getEndpoint }
          if isProxy then
            { state := { st1 with oldValsCache := alPut st1.oldValsCache getEndpoint oldVals },
              fetches := [], logged := none, cont := true }
          else
            let r := buildUpdateRecord opts req auditing idVal skipDiff oldVals newVals
            { state := { st1 with auditValues := alPut st1.auditValues routeEndpoint r },
              fetches := [], logged := none, cont := true }
    else if isDelete req.method then
      let raw := Value.str (rawOf (env.fetch req.pathname))
      let r := createMutation req.method opts.clientId
        (getEntity auditing.entity req.pathname)
        (getEntityId auditing.entityKeys idVal (some raw)) username (some raw) none
      { state := { st with auditValues := alPut st.auditValues routeEndpoint r },
        fetches := [req.pathname], logged := none, cont := true }
    else
      { state := st, fetches := [], logged := none, cont := true }

/-- Embedding of the onPreResponse extension handler (plugin body lines
208-345).  After the gating checks, the action-override block computes a
record for successful creates and updates on routes declaring an action;
the subsequent if-else chain then unconditionally recomputes the record in
its matching branch (read, update, delete, create), so a chain value
replaces the override value whenever a chain branch matches.  Finally the
record is published unless the request is an injected read or GET auditing
is off; publishing a missing record raises the null-record error, which the
catch-all logs.  Every path returns continue. -/
def onPreResponse (opts : Options) (env : Env) (st : PluginState)
    (req : Request) (resp : ResponseInfo) : PostResponseResult :=
  let auditing := req.auditing.getD defaultRouteAuditing
  let idParam := auditing.idParam.getD "id"
  let skipDiff := auditing.skipDiff
  let username := getUser req
  let source := resp.source
  if isDisabled auditing || !(isLoggedIn username) ||
      !(opts.isAuditable req.pathname req.method) then
    { state := st, emitted := none, fetches := [], logged := none, cont := true }
  else
    let routeEndpoint := toEndpoint req.method req.pathname none
    let getEndpoint := toEndpoint "get" req.pathname auditing.getPath
    let rec0 : Option AuditRecord :=
      if truthy auditing.action && (isUpdate req.method || isCreate req.method) &&
          isSuccessfulResponse resp.statusCode then
        let idVal := orTruthy (alGet req.params idParam) (payloadLookup req.payload idParam)
        some (createAction auditing.action opts.clientId
          (getEntity auditing.entity req.pathname)
          (getEntityId auditing.entityKeys idVal (some (payloadToValue req.payload)))
          auditing.action username (some (payloadToValue req.payload)))
      else none
    let branch : PluginState × Option AuditRecord × List String :=
      if isRead req.method && isSuccessfulResponse resp.statusCode && !req.injected then
        let idVal := alGet req.params idParam
        let st1 :=
          if truthy idVal && !opts.disableCache && !isStream source then
            match source with
            | Payload.obj o => { st with oldValsCache := alPut st.oldValsCache getEndpoint o }
            | _ => st
          else st
        let r := createAction none opts.clientId
          (getEntity auditing.entity req.pathname)
          (getEntityId auditing.entityKeys idVal none)
          (orTruthy (auditing.action.map upperStr) (some AUDIT_TYPE_SEARCH))
          username (some (Value.obj req.query))
        (st1, some r, [])
      else if isUpdate req.method && isSuccessfulResponse resp.statusCode then
        let idVal := alGet req.params idParam
        let oldVals := alGet st.oldValsCache getEndpoint
        if isStream source then
          let newVals := env.fetch req.pathname
          let oldV := removeKeysO oldVals skipDiff
          let newV := removeKeysO newVals skipDiff
          let d := opts.diffFunc oldV newV
          let r := createMutation req.method opts.clientId
            (getEntity auditing.entity req.pathname)
            (getEntityId auditing.entityKeys idVal (newV.map Value.obj))
            username (d.1.map Value.obj) (d.2.map Value.obj)
          ({ st with oldValsCache := alDel st.oldValsCache getEndpoint }, some r, [req.pathname])
        else
          (st, alGet st.auditValues routeEndpoint, [])
      else if isDelete req.method && isSuccessfulResponse resp.statusCode then
        (st, alGet st.auditValues routeEndpoint, [])
      else if isCreate req.method && isSuccessfulResponse resp.statusCode then
        let idVal := if gotResponseData source then payloadLookup source idParam
                     else payloadLookup req.payload idParam
        let data := if gotResponseData source then source else req.payload
        let r := createMutation req.method opts.clientId
          (getEntity auditing.entity req.pathname)
          (getEntityId auditing.entityKeys idVal (some (payloadToValue data)))
          username none (some (payloadToValue data))
        (st, some r, [])
      else (st, rec0, [])
    let st1 := branch.1
    let recOut := branch.2.1
    let fs := branch.2.2
    if shouldAuditRequest req.method opts.auditGetRequests req.injected then
      match recOut with
      | some r =>
          { state := { st1 with auditValues := alDel st1.auditValues routeEndpoint },
            emitted := some r, fetches := fs, logged := none, cont := true }
      | none =>
          { state := st1, emitted := none, fetches := fs,
            logged := some ("Cannot audit null audit record for endpoint: " ++ routeEndpoint),
            cont := true }
    else
      { state := st1, emitted := none, fetches := fs, logged := none, cont := true }

/-- Trace of one request processed through both interception phases; the
post-response phase is the only place a record is published, so the records
emitted for the request are exactly the emitted field of the post phase. -/
structure RequestTrace where
  pre : PreHandlerResult
  post : PostResponseResult
deriving DecidableEq, Repr

/-- One full request: pre-handler, business logic (producing resp), then
post-response on the pre-handler state. -/
def processRequest (opts : Options) (env : Env) (st : PluginState)
    (req : Request) (resp : ResponseInfo) : RequestTrace :=
  let pre := onPreHandler opts env st req
  let post := onPreResponse opts env pre.state req resp
  { pre := pre, post := post }

/-- Options object as passed to register, carrying a possible subscriber
under the documented key eventHandler and a possible subscriber under the
misspelled key eventHanler, which is the key the destructuring in the
register function actually reads (plugin body lines 47-50).  H is the type
of subscriber functions, kept abstract. -/
structure RegisterOptions (H : Type) where
  eventHandler : Option H
  eventHanler : Option H

/-- The subscriber registered on the emit channel at register time (plugin
body lines 47-60): the value destructured from the key eventHanler when
present, else the default console-logging subscriber, modelled as the right
injection. -/
def registeredSubscriber {H : Type} (o : RegisterOptions H) : H ⊕ Unit :=
  match o.eventHanler with
  | some h => Sum.inl h
  | none => Sum.inr ()

/-- The cache read performed for an update baseline: skipped entirely when
the cache is disabled (plugin body lines 145-147). -/
def cachedBaseline (opts : Options) (st : PluginState) (getEndpoint : String) : Option Obj :=
  if opts.disableCache then none else alGet st.oldValsCache getEndpoint

/-- The baseline an update obtains: the cached snapshot when the cache read
hits, else the internally fetched state (plugin body lines 145-156). -/
def baselineOf (opts : Options) (env : Env) (st : PluginState) (req : Request)
    (getEndpoint : String) : Option Obj :=
  match cachedBaseline opts st getEndpoint with
  | some o => some o
  | none => env.fetch req.pathname

/-- Abbreviation: the route audit configuration of a request, defaulting to
the empty configuration. -/
def reqAuditing (req : Request) : RouteAuditing := req.auditing.getD defaultRouteAuditing

/-- Abbreviation: the id parameter name of a request route, defaulting to id. -/
def reqIdParam (req : Request) : String := (reqAuditing req).idParam.getD "id"

/-- Abbreviation: the id route parameter value of a request. -/
def reqIdVal (req : Request) : Option String := alGet req.params (reqIdParam req)

/-- Abbreviation: the pre-handler skip list of a request, defaulting to []. -/
def reqSkipDiff (req : Request) : List String := (reqAuditing req).skipDiff.getD []

/-- Abbreviation: the pending-record key of a request. -/
def routeEndpointOf (req : Request) : String := toEndpoint req.method req.pathname none

/-- Abbreviation: the canonical read key of a request. -/
def getEndpointOf (req : Request) : String :=
  toEndpoint "get" req.pathname (reqAuditing req).getPath

/-- Environment whose internal reads see an entity with field a = 1. -/
def envEntityA : Env := { fetch := fun _ => some [("a", "1")] }

/-- Environment whose internal reads see a user entity with name = A. -/
def envUserA : Env := { fetch := fun _ => some [("name", "A")] }

/-- Environment whose internal reads yield no parseable data. -/
def envNoData : Env := { fetch := fun _ => none }

/-- A materializable PUT of name = B on /api/users/1 by admin. -/
def updateReq : Request :=
  { pathname := "/api/users/1", method := "put", params := [("id", "1")],
    payload := Payload.obj [("name", "B")], query := [], injected := false,
    username := some "admin", auditing := none }

/-- The same PUT with a streamed (proxied) body. -/
def streamPutReq : Request := { updateReq with payload := Payload.stream }

/-- A GET of /api/users/1 by admin. -/
def getReq : Request :=
  { pathname := "/api/users/1", method := "get", params := [("id", "1")],
    payload := Payload.null, query := [("page", "1")], injected := false,
    username := some "admin", auditing := none }

/-- A DELETE of /api/users/5 by admin. -/
def deleteReq : Request :=
  { pathname := "/api/users/5", method := "delete", params := [("id", "5")],
    payload := Payload.null, query := [], injected := false,
    username := some "admin", auditing := none }

/-- Route configuration declaring the custom action REGISTER. -/
def overrideAuditing : RouteAuditing :=
  { defaultRouteAuditing with action := some "REGISTER" }

/-- A POST to /api/users on a route declaring action REGISTER. -/
def createOverrideReq : Request :=
  { pathname := "/api/users", method := "post", params := [],
    payload := Payload.obj [("id", "7"), ("name", "x")], query := [],
    injected := false, username := some "admin", auditing := some overrideAuditing }

/-- A PUT to /api/users/7 on a route declaring action REGISTER. -/
def putOverrideReq : Request :=
  { pathname := "/api/users/7", method := "put", params := [("id", "7")],
    payload := Payload.obj [("name", "x")], query := [], injected := false,
    username := some "admin", auditing := some overrideAuditing }

/-- A PUT outside the default auditable path space. -/
def nonApiReq : Request := { updateReq with pathname := "/other/users/1" }

/-- A 200 response with an empty body. -/
def resp200null : ResponseInfo := { statusCode := 200, source := Payload.null }

/-- A 200 response echoing the updated user. -/
def resp200name : ResponseInfo := { statusCode := 200, source := Payload.obj [("name", "B")] }

/-- A 201 response echoing the created entity. -/
def resp201obj : ResponseInfo := { statusCode := 201, source := Payload.obj [("id", "7"), ("name", "x")] }

/-- A 200 response with a small object body. -/
def resp200obj : ResponseInfo := { statusCode := 200, source := Payload.obj [("name", "x")] }

/-- A 500 response. -/
def resp500 : ResponseInfo := { statusCode := 500, source := Payload.null }

/-- A 200 GET response carrying the user entity. -/
def respGet200 : ResponseInfo := { statusCode := 200, source := Payload.obj [("name", "A")] }

/-- A 200 response whose body is a stream. -/
def resp200stream : ResponseInfo := { statusCode := 200, source := Payload.stream }

/-- The plugin options with the cache disabled. -/
def optsNoCache : Options := { defaultOptions with disableCache := true }

/-- The plugin options with the identity pass-through diff strategy. -/
def optsPassThrough : Options := { defaultOptions with diffFunc := passThroughDiff }

/-- The pending Mutation record the pre-handler stores for updateReq under
envUserA and the default options (whose diff strategy returns two empty
objects). -/
def pendingUpdateRec : AuditRecord :=
  createMutation "put" "client-app" (some "users") (some "1") (some "admin")
    (some (Value.obj [])) (some (Value.obj []))

/-- The plugin state after the pre-handler of updateReq ran from the
initial state. -/
def stAfterUpdatePre : PluginState :=
  (onPreHandler defaultOptions envUserA initialState updateReq).state

/-! Association-list map lemmas. -/

theorem alGet_alPut_self (m : List (String × α)) (k : String) (v : α) :
    alGet (alPut m k v) k = some v := by
  simp [alGet, alPut, List.lookup]

theorem alGet_alDel_self (m : List (String × α)) (k : String) :
    alGet (alDel m k) k = none := by
  induction m with
  | nil => rfl
  | cons p t ih =>
      obtain ⟨a, b⟩ := p
      by_cases h : a = k
      · simpa [alDel, alGet, List.filter_cons, h] using ih
      · have hk : (k == a) = false := beq_false_of_ne (Ne.symm h)
        simpa [alDel, alGet, List.filter_cons, h, List.lookup, hk] using ih

theorem alGet_alDel_ne (m : List (String × α)) (k j : String) (h : j ≠ k) :
    alGet (alDel m k) j = alGet m j := by
  induction m with
  | nil => rfl
  | cons p t ih =>
      obtain ⟨a, b⟩ := p
      by_cases ha : a = k
      · have hj : (j == a) = false := beq_false_of_ne (by simpa [ha] using h)
        have hk : (j == k) = false := beq_false_of_ne h
        simpa [alDel, alGet, List.filter_cons, ha, List.lookup, hj, hk] using ih
      · by_cases hj : j = a
        · simp [alDel, alGet, List.filter_cons, ha, List.lookup, hj]
        · have hj2 : (j == a) = false := beq_false_of_ne hj
          simpa [alDel, alGet, List.filter_cons, ha, List.lookup, hj2] using ih

/-! Helper lemmas describing the pre-handler and post-response behaviour on
each branch, shared by the claim theorems. -/

theorem onPreHandler_update_hit
    (opts : Options) (env : Env) (st : PluginState) (req : Request) (o : Obj)
    (hgate1 : isDisabled (reqAuditing req) = false)
    (hgate2 : isLoggedIn (getUser req) = true)
    (hgate3 : opts.isAuditable req.pathname req.method = true)
    (hact : truthy (reqAuditing req).action = false)
    (hm : req.method = "put")
    (hstream : isStream req.payload = false)
    (hc : cachedBaseline opts st (getEndpointOf req) = some o) :
    onPreHandler opts env st req =
      { state := { oldValsCache := alDel st.oldValsCache (getEndpointOf req),
                   auditValues := alPut st.auditValues (routeEndpointOf req)
                     (buildUpdateRecord opts req (reqAuditing req) (reqIdVal req)
                       (reqSkipDiff req) o (clonePayload req.payload)) },
        fetches := [], logged := none, cont := true } := by
  have hu : isUpdate req.method = true := by rw [hm]; rfl
  simp only [reqAuditing] at hgate1 hact
  simp only [cachedBaseline, getEndpointOf, reqAuditing] at hc
  simp only [onPreHandler, hgate1, hgate2, hgate3, hact, hu, hstream, Bool.not_true,
    Bool.false_or, Bool.or_false, if_false, Bool.false_eq_true, if_true, hc]
  simp [reqAuditing, reqIdVal, reqIdParam, reqSkipDiff, routeEndpointOf, getEndpointOf]

theorem onPreHandler_update_miss
    (opts : Options) (env : Env) (st : PluginState) (req : Request) (o : Obj)
    (hgate1 : isDisabled (reqAuditing req) = false)
    (hgate2 : isLoggedIn (getUser req) = true)
    (hgate3 : opts.isAuditable req.pathname req.method = true)
    (hact : truthy (reqAuditing req).action = false)
    (hm : req.method = "put")
    (hstream : isStream req.payload = false)
    (hc : cachedBaseline opts st (getEndpointOf req) = none)
    (hf : env.fetch req.pathname = some o) :
    onPreHandler opts env st req =
      { state := { oldValsCache := st.oldValsCache,
                   auditValues := alPut st.auditValues (routeEndpointOf req)
                     (buildUpdateRecord opts req (reqAuditing req) (reqIdVal req)
                       (reqSkipDiff req) o (clonePayload req.payload)) },
        fetches := [req.pathname], logged := none, cont := true } := by
  have hu : isUpdate req.method = true := by rw [hm]; rfl
  simp only [reqAuditing] at hgate1 hact
  simp only [cachedBaseline, getEndpointOf, reqAuditing] at hc
  simp only [onPreHandler, hgate1, hgate2, hgate3, hact, hu, hstream, Bool.not_true,
    Bool.false_or, Bool.or_false, if_false, Bool.false_eq_true, if_true, hc, hf]
  simp [reqAuditing, reqIdVal, reqIdParam, reqSkipDiff, routeEndpointOf, getEndpointOf]

theorem onPreHandler_update_fetch_fails
    (opts : Options) (env : Env) (st : PluginState) (req : Request)
    (hgate1 : isDisabled (reqAuditing req) = false)
    (hgate2 : isLoggedIn (getUser req) = true)
    (hgate3 : opts.isAuditable req.pathname req.method = true)
    (hact : truthy (reqAuditing req).action = false)
    (hm : req.method = "put")
    (hc : cachedBaseline opts st (getEndpointOf req) = none)
    (hf : env.fetch req.pathname = none) :
    onPreHandler opts env st req =
      { state := st, fetches := [req.pathname],
        logged := some ("Cannot get data before update on " ++ routeEndpointOf req),
        cont := true } := by
  have hu : isUpdate req.method = true := by rw [hm]; rfl
  simp only [reqAuditing] at hgate1 hact
  simp only [cachedBaseline, getEndpointOf, reqAuditing] at hc
  simp only [onPreHandler, hgate1, hgate2, hgate3, hact, hu, Bool.not_true,
    Bool.false_or, Bool.or_false, if_false, Bool.false_eq_true, if_true, hc, hf]
  simp [routeEndpointOf]

theorem onPreHandler_delete
    (opts : Options) (env : Env) (st : PluginState) (req : Request)
    (hgate1 : isDisabled (reqAuditing req) = false)
    (hgate2 : isLoggedIn (getUser req) = true)
    (hgate3 : opts.isAuditable req.pathname req.method = true)
    (hact : truthy (reqAuditing req).action = false)
    (hm : req.method = "delete") :
    onPreHandler opts env st req =
      { state := { oldValsCache := st.oldValsCache,
                   auditValues := alPut st.auditValues (routeEndpointOf req)
                     (createMutation req.method opts.clientId
                       (getEntity (reqAuditing req).entity req.pathname)
                       (getEntityId (reqAuditing req).entityKeys (reqIdVal req)
                         (some (Value.str (rawOf (env.fetch req.pathname)))))
                       (getUser req)
                       (some (Value.str (rawOf (env.fetch req.pathname)))) none) },
        fetches := [req.pathname], logged := none, cont := true } := by
  have hu : isUpdate req.method = false := by rw [hm]; rfl
  have hd : isDelete req.method = true := by rw [hm]; rfl
  simp only [reqAuditing] at hgate1 hact
  simp only [onPreHandler, hgate1, hgate2, hgate3, hact, hu, hd, Bool.not_true,
    Bool.false_or, Bool.or_false, if_false, Bool.false_eq_true, if_true]
  simp [reqAuditing, reqIdVal, reqIdParam, routeEndpointOf]

theorem onPreResponse_update_nonstream
    (opts : Options) (env : Env) (st : PluginState) (req : Request)
    (resp : ResponseInfo) (r : AuditRecord)
    (hgate1 : isDisabled (reqAuditing req) = false)
    (hgate2 : isLoggedIn (getUser req) = true)
    (hgate3 : opts.isAuditable req.pathname req.method = true)
    (hm : req.method = "put")
    (hs : isSuccessfulResponse resp.statusCode = true)
    (hsrc : isStream resp.source = false)
    (hpend : alGet st.auditValues (routeEndpointOf req) = some r) :
    (onPreResponse opts env st req resp).emitted = some r
    ∧ (onPreResponse opts env st req resp).state.oldValsCache = st.oldValsCache
    ∧ (onPreResponse opts env st req resp).fetches = [] := by
  have hu : isUpdate req.method = true := by rw [hm]; rfl
  have hr : isRead req.method = false := by rw [hm]; rfl
  have hsa : shouldAuditRequest req.method opts.auditGetRequests req.injected = true := by
    simp [shouldAuditRequest, hr]
  simp only [reqAuditing] at hgate1
  simp only [routeEndpointOf] at hpend
  simp only [onPreResponse, hgate1, hgate2, hgate3, hu, hr, hs, hsrc, hsa, Bool.not_true,
    Bool.false_or, Bool.or_false, Bool.and_true, Bool.true_and, Bool.and_false,
    Bool.false_and, if_false, Bool.false_eq_true, if_true, hpend]
  simp

theorem onPreResponse_read_caches
    (opts : Options) (env : Env) (st : PluginState) (req : Request)
    (resp : ResponseInfo) (o : Obj)
    (hgate1 : isDisabled (reqAuditing req) = false)
    (hgate2 : isLoggedIn (getUser req) = true)
    (hgate3 : opts.isAuditable req.pathname req.method = true)
    (hm : req.method = "get")
    (hs : isSuccessfulResponse resp.statusCode = true)
    (hinj : req.injected = false)
    (hid : truthy (reqIdVal req) = true)
    (hdc : opts.disableCache = false)
    (hsrc : resp.source = Payload.obj o) :
    (onPreResponse opts env st req resp).state.oldValsCache
      = alPut st.oldValsCache (getEndpointOf req) o := by
  have hr : isRead req.method = true := by rw [hm]; rfl
  simp only [reqAuditing] at hgate1
  simp only [reqIdVal, reqIdParam, reqAuditing] at hid
  simp only [onPreResponse, hgate1, hgate2, hgate3, hr, hs, hinj, hid, hdc, hsrc,
    Bool.not_true, Bool.not_false, Bool.false_or, Bool.or_false, Bool.and_true,
    Bool.true_and, if_false, Bool.false_eq_true, if_true, isStream]
  by_cases hga : shouldAuditRequest req.method opts.auditGetRequests false = true
  · simp [hga, getEndpointOf, reqAuditing]
  · simp [Bool.of_not_eq_true hga, getEndpointOf, reqAuditing]

/-- C9: a Mutation record built without a route-configured action derives
its action from the HTTP verb — put gives UPDATE, post gives CREATE, delete
gives DELETE — and a present (non-empty) route-configured action is used
instead of the derived one, for every verb. -/
theorem C9_mutation_action_derived
    (entity entityId username application : Option String)
    (ov nv : Option Value) (a : String) (ha : a ≠ "") :
    (mkAuditMutation "put" none entity entityId username application ov nv).bodyAction
        = some MUTATION_UPDATE
    ∧ (mkAuditMutation "post" none entity entityId username application ov nv).bodyAction
        = some MUTATION_CREATE
    ∧ (mkAuditMutation "delete" none entity entityId username application ov nv).bodyAction
        = some MUTATION_DELETE
    ∧ ∀ method : String,
        (mkAuditMutation method (some a) entity entityId username application ov nv).bodyAction
          = some a := by
  have hta : truthy (some a) = true := by
    have hne : a.isEmpty = false := by
      cases hb : a.isEmpty with
      | false => rfl
      | true => exact absurd ((String.isEmpty_iff a).mp hb) ha
    simp [truthy, hne]
  refine ⟨rfl, rfl, rfl, fun method => ?_⟩
  simp [mkAuditMutation, AuditRecord.bodyAction, orTruthy, hta]

/-- C9 witness: concrete evaluation of the derived and overridden actions. -/
theorem C9_mutation_action_derived_witness :
    ("REGISTER" : String) ≠ ""
    ∧ (mkAuditMutation "put" none none none none none none none).bodyAction
        = some MUTATION_UPDATE
    ∧ (mkAuditMutation "put" (some "REGISTER") none none none none none none).bodyAction
        = some "REGISTER" := by
  have h := C9_mutation_action_derived none none none none none none "REGISTER" (by decide)
  exact ⟨by decide, h.1, h.2.2.2 "put"⟩

/-- C5: evaluation at the failing input.  An options object that supplies a
subscriber under the documented key eventHandler does not override the
default: the register destructuring reads the misspelled key eventHanler,
so the registered subscriber is the default console logger, not the
supplied function. -/
theorem C5_supplied_eventHandler_ignored :
    registeredSubscriber { eventHandler := some 0, eventHanler := none : RegisterOptions Nat }
        = Sum.inr ()
    ∧ registeredSubscriber { eventHandler := some 0, eventHanler := none : RegisterOptions Nat }
        ≠ Sum.inl 0
    ∧ registeredSubscriber { eventHandler := none, eventHanler := none : RegisterOptions Nat }
        = Sum.inr () := by
  exact ⟨rfl, by decide, rfl⟩

/-- C8: when the route disables auditing, or no username resolves, or the
path/method pair is not auditable, no audit record is emitted for the
request: the post-response phase publishes nothing and the pre-handler
leaves the shared state untouched, whatever the verb and response. -/
theorem C8_no_emission_when_gated
    (opts : Options) (env : Env) (st : PluginState) (req : Request)
    (resp : ResponseInfo)
    (h : isDisabled (reqAuditing req) = true
       ∨ isLoggedIn (getUser req) = false
       ∨ opts.isAuditable req.pathname req.method = false) :
    (onPreResponse opts env st req resp).emitted = none
    ∧ (onPreHandler opts env st req).state = st := by
  rcases h with h | h | h
  · simp only [reqAuditing] at h
    exact ⟨by simp [onPreResponse, h], by simp [onPreHandler, h]⟩
  · exact ⟨by simp [onPreResponse, h], by simp [onPreHandler, h]⟩
  · exact ⟨by simp [onPreResponse, h], by simp [onPreHandler, h]⟩

/-- C8 witness: a PUT outside the auditable path space with a 2xx response
emits nothing and leaves the state unchanged. -/
theorem C8_no_emission_when_gated_witness :
    (onPreResponse defaultOptions envUserA initialState nonApiReq resp200name).emitted = none
    ∧ (onPreHandler defaultOptions envUserA initialState nonApiReq).state = initialState := by
  exact C8_no_emission_when_gated defaultOptions envUserA initialState nonApiReq resp200name
    (Or.inr (Or.inr (by decide)))

/-- C6: for every input both interception handlers return continue, so the
business operation proceeds regardless of audit outcomes; and at a concrete
input whose baseline fetch fails the pre-handler catches the
data-unavailable error, logs it, and still returns continue. -/
theorem C6_handlers_always_continue :
    (∀ (opts : Options) (env : Env) (st : PluginState) (req : Request)
        (resp : ResponseInfo),
        (onPreHandler opts env st req).cont = true
        ∧ (onPreResponse opts env st req resp).cont = true)
    ∧ (onPreHandler defaultOptions envNoData initialState updateReq).logged
        = some "Cannot get data before update on put:/api/users/1"
    ∧ (onPreHandler defaultOptions envNoData initialState updateReq).cont = true := by
  refine ⟨fun opts env st req resp => ⟨?_, ?_⟩, by decide, by decide⟩
  · unfold onPreHandler
    repeat' (first | rfl | split | simp only [])
  · unfold onPreResponse
    repeat' (first | rfl | split | simp only [])

/-- C10: an UPDATE or DELETE whose pre-handler stored a pending record but
whose response is not 2xx leads the post-response phase to emit nothing, to
log the null-record error, and to leave the pending-store entry for the
(verb, path) key in place. -/
theorem C10_non2xx_leaves_pending
    (opts : Options) (env : Env) (st : PluginState) (req : Request)
    (resp : ResponseInfo) (r0 : AuditRecord)
    (hgate1 : isDisabled (reqAuditing req) = false)
    (hgate2 : isLoggedIn (getUser req) = true)
    (hgate3 : opts.isAuditable req.pathname req.method = true)
    (hm : req.method = "put" ∨ req.method = "delete")
    (hs : isSuccessfulResponse resp.statusCode = false)
    (hpend : alGet st.auditValues (routeEndpointOf req) = some r0) :
    (onPreResponse opts env st req resp).emitted = none
    ∧ (onPreResponse opts env st req resp).logged
        = some ("Cannot audit null audit record for endpoint: " ++ routeEndpointOf req)
    ∧ alGet (onPreResponse opts env st req resp).state.auditValues (routeEndpointOf req)
        = some r0 := by
  simp only [reqAuditing] at hgate1
  rcases hm with hm | hm
  all_goals
    rw [hm] at hgate3
    refine ⟨?_, ?_, ?_⟩
    · simp [onPreResponse, hgate1, hgate2, hgate3, hm, hs, isRead, isUpdate, isDelete,
        isCreate, shouldAuditRequest]
    · simp [onPreResponse, hgate1, hgate2, hgate3, hm, hs, isRead, isUpdate, isDelete,
        isCreate, shouldAuditRequest, routeEndpointOf]
    · simpa [onPreResponse, hgate1, hgate2, hgate3, hm, hs, isRead, isUpdate, isDelete,
        isCreate, shouldAuditRequest, routeEndpointOf] using hpend

/-- C10 witness: the pending record of updateReq survives a 500 response,
which emits nothing and logs the null-record error. -/
theorem C10_non2xx_leaves_pending_witness :
    (onPreResponse defaultOptions envUserA stAfterUpdatePre updateReq resp500).emitted = none
    ∧ (onPreResponse defaultOptions envUserA stAfterUpdatePre updateReq resp500).logged
        = some ("Cannot audit null audit record for endpoint: " ++ routeEndpointOf updateReq)
    ∧ alGet (onPreResponse defaultOptions envUserA stAfterUpdatePre updateReq resp500).state.auditValues
        (routeEndpointOf updateReq) = some pendingUpdateRec := by
  exact C10_non2xx_leaves_pending defaultOptions envUserA stAfterUpdatePre updateReq resp500
    pendingUpdateRec (by decide) (by decide) (by decide) (Or.inl (by decide)) (by decide)
    (by decide)

/-- C1: evaluation at the failing input.  A successful POST on a route
declaring the custom action REGISTER emits a Mutation record, not the
Action record built by the override block: the branch chain that follows
the override block recomputes the record for every successful create or
update, discarding the Action record; for a successful PUT with a
materializable response the recomputed record is the absent pending entry,
so nothing is emitted and the null-record error is logged. -/
theorem C1_override_record_discarded :
    ((processRequest defaultOptions envEntityA initialState createOverrideReq resp201obj).post.emitted.map
        AuditRecord.isMutation) = some true
    ∧ ((processRequest defaultOptions envEntityA initialState createOverrideReq resp201obj).post.emitted.map
        AuditRecord.bodyAction) = some (some "CREATE")
    ∧ (processRequest defaultOptions envEntityA initialState putOverrideReq resp200obj).post.emitted
        = none
    ∧ ((processRequest defaultOptions envEntityA initialState putOverrideReq resp200obj).post.logged)
        = some "Cannot audit null audit record for endpoint: put:/api/users/7" := by
  refine ⟨by decide, by decide, by decide, by decide⟩

/-- C4: evaluation at the failing input.  A successful DELETE of
/api/users/5 whose pre-delete internal read returns the entity with field
a = 1 emits exactly one Mutation record, but its originalValues is the raw
serialized body string of the inject response — the delete branch stores
the payload without JSON-parsing it, unlike the update branch — and its
newValues is the defaulted empty object rather than being absent. -/
theorem C4_delete_originalValues_not_parsed :
    ((processRequest defaultOptions envEntityA initialState deleteReq resp200null).post.emitted.map
        AuditRecord.isMutation) = some true
    ∧ ((processRequest defaultOptions envEntityA initialState deleteReq resp200null).post.emitted.map
        AuditRecord.originalValues) = some (some (Value.str "\x7b\"a\":\"1\"\x7d"))
    ∧ ((processRequest defaultOptions envEntityA initialState deleteReq resp200null).post.emitted.map
        AuditRecord.originalValues) ≠ some (some (Value.obj [("a", "1")]))
    ∧ ((processRequest defaultOptions envEntityA initialState deleteReq resp200null).post.emitted.map
        AuditRecord.newValues) = some (some (Value.obj [])) := by
  refine ⟨by decide, by decide, by decide, by decide⟩

/-- C2 counterexample: under the plugin defaults (whose diffFunc ignores its
inputs and returns two empty objects), a successful materializable PUT with
baseline name = A, payload name = B and empty skip list emits a Mutation
whose originalValues is the empty object — not the baseline snapshot minus
skip fields — and whose newValues is not the payload minus skip fields. -/
theorem C2_counterexample_default_diffFunc :
    ((processRequest defaultOptions envUserA initialState updateReq resp200name).post.emitted.map
        AuditRecord.originalValues) = some (some (Value.obj []))
    ∧ ((processRequest defaultOptions envUserA initialState updateReq resp200name).post.emitted.map
        AuditRecord.originalValues) ≠ some (some (Value.obj [("name", "A")]))
    ∧ ((processRequest defaultOptions envUserA initialState updateReq resp200name).post.emitted.map
        AuditRecord.newValues) ≠ some (some (Value.obj [("name", "B")])) := by
  refine ⟨by decide, by decide, by decide⟩

/-- C3 counterexample: with disableCache set, the pre-handler of a streamed
(proxied) PUT still writes the fetched baseline into the pre-state cache
— the put is not inert — and the post-response phase of the same request
then reads that entry back with a hit, emitting a record diffed against the
cached baseline. -/
theorem C3_counterexample_stream_cache_write :
    (onPreHandler optsNoCache envUserA initialState streamPutReq).state.oldValsCache
        = [("get:/api/users/1", [("name", "A")])]
    ∧ alGet (onPreHandler optsNoCache envUserA initialState streamPutReq).state.oldValsCache
        "get:/api/users/1" = some [("name", "A")] := by
  refine ⟨by decide, by decide⟩

/-- C2 amended: for every UPDATE request to an auditable route with a
logged-in user, a materializable body, no route action override, an
obtainable baseline, and a 2xx non-streamed response, exactly one Mutation
record is emitted; its originalValues and newValues are the two components
returned by the configured diffFunc applied to the baseline snapshot and
the request payload after removing skip-listed fields (defaulting to the
empty object when a component is absent) — so they equal the baseline and
payload minus skip fields exactly when diffFunc is a pass-through, not in
general. -/
theorem C2_amended_update_mutation
    (opts : Options) (env : Env) (st : PluginState) (req : Request)
    (resp : ResponseInfo) (b p : Obj)
    (hgate1 : isDisabled (reqAuditing req) = false)
    (hgate2 : isLoggedIn (getUser req) = true)
    (hgate3 : opts.isAuditable req.pathname req.method = true)
    (hact : truthy (reqAuditing req).action = false)
    (hm : req.method = "put")
    (hpay : req.payload = Payload.obj p)
    (hbase : baselineOf opts env st req (getEndpointOf req) = some b)
    (hs : isSuccessfulResponse resp.statusCode = true)
    (hsrc : isStream resp.source = false) :
    (processRequest opts env st req resp).post.emitted.map AuditRecord.isMutation
        = some true
    ∧ (processRequest opts env st req resp).post.emitted.map AuditRecord.originalValues
        = some (some (((opts.diffFunc (some (removeKeys b (reqSkipDiff req)))
            (some (removeKeys p (reqSkipDiff req)))).1.map Value.obj).getD (Value.obj [])))
    ∧ (processRequest opts env st req resp).post.emitted.map AuditRecord.newValues
        = some (some (((opts.diffFunc (some (removeKeys b (reqSkipDiff req)))
            (some (removeKeys p (reqSkipDiff req)))).2.map Value.obj).getD (Value.obj []))) := by
  have hstream : isStream req.payload = false := by rw [hpay]; rfl
  have hclone : clonePayload req.payload = some p := by rw [hpay]; rfl
  have tail : ∀ r0 : AuditRecord,
      alGet (onPreHandler opts env st req).state.auditValues (routeEndpointOf req) = some r0 →
      (processRequest opts env st req resp).post.emitted = some r0 := by
    intro r0 hpend
    have hpost := onPreResponse_update_nonstream opts env
      (onPreHandler opts env st req).state req resp r0 hgate1 hgate2 hgate3 hm hs hsrc hpend
    simpa [processRequest] using hpost.1
  have hemit : (processRequest opts env st req resp).post.emitted
      = some (buildUpdateRecord opts req (reqAuditing req) (reqIdVal req)
          (reqSkipDiff req) b (clonePayload req.payload)) := by
    cases hc : cachedBaseline opts st (getEndpointOf req) with
    | some o =>
        have hob : o = b := by
          have h2 := hbase
          simp [baselineOf, hc] at h2
          exact h2
        subst hob
        have hpre := onPreHandler_update_hit opts env st req o hgate1 hgate2 hgate3
          hact hm hstream hc
        apply tail
        rw [hpre]
        exact alGet_alPut_self _ _ _
    | none =>
        have hf : env.fetch req.pathname = some b := by
          have h2 := hbase
          simp [baselineOf, hc] at h2
          exact h2
        have hpre := onPreHandler_update_miss opts env st req b hgate1 hgate2 hgate3
          hact hm hstream hc hf
        apply tail
        rw [hpre]
        exact alGet_alPut_self _ _ _
  refine ⟨?_, ?_, ?_⟩ <;>
    simp [hemit, hclone, buildUpdateRecord, createMutation, mkAuditMutation,
      AuditRecord.isMutation, AuditRecord.originalValues, AuditRecord.newValues]

/-- C2 witness: with the pass-through diff strategy, the PUT of name = B on
the user whose baseline is name = A emits one Mutation whose originalValues
is the baseline and whose newValues is the payload. -/
theorem C2_amended_update_mutation_witness :
    (processRequest optsPassThrough envUserA initialState updateReq resp200name).post.emitted.map
        AuditRecord.isMutation = some true
    ∧ (processRequest optsPassThrough envUserA initialState updateReq resp200name).post.emitted.map
        AuditRecord.originalValues = some (some (Value.obj [("name", "A")]))
    ∧ (processRequest optsPassThrough envUserA initialState updateReq resp200name).post.emitted.map
        AuditRecord.newValues = some (some (Value.obj [("name", "B")])) := by
  have h := C2_amended_update_mutation optsPassThrough envUserA initialState updateReq
    resp200name [("name", "A")] [("name", "B")] (by decide) (by decide) (by decide)
    (by decide) (by decide) (by decide) (by decide) (by decide) (by decide)
  refine ⟨h.1, ?_, ?_⟩
  · rw [h.2.1]; decide
  · rw [h.2.2]; decide

/-- C3 amended: with disableCache set, the gated cache paths are inert: the
cache read for update baselines always misses, every materializable UPDATE
and every DELETE performs an internal BaselineFetcher read of the request
path, the non-streamed update pre-handler leaves the pre-state cache
unchanged, and the read-response branch never writes it.  The
streamed-update handoff is the exception — its pre-handler still writes the
cache and its post-response still reads it (see the counterexample). -/
theorem C3_amended_disableCache_inert
    (opts : Options) (env : Env) (st : PluginState) (req : Request)
    (resp : ResponseInfo)
    (hdc : opts.disableCache = true)
    (hgate1 : isDisabled (reqAuditing req) = false)
    (hgate2 : isLoggedIn (getUser req) = true)
    (hgate3 : opts.isAuditable req.pathname req.method = true) :
    (∀ k, cachedBaseline opts st k = none)
    ∧ (truthy (reqAuditing req).action = false → req.method = "put" →
        isStream req.payload = false →
        (onPreHandler opts env st req).state.oldValsCache = st.oldValsCache
        ∧ (onPreHandler opts env st req).fetches = [req.pathname])
    ∧ (truthy (reqAuditing req).action = false → req.method = "delete" →
        (onPreHandler opts env st req).fetches = [req.pathname])
    ∧ (req.method = "get" →
        (onPreResponse opts env st req resp).state.oldValsCache = st.oldValsCache) := by
  refine ⟨fun k => by simp [cachedBaseline, hdc], ?_, ?_, ?_⟩
  · intro hact hm hstream
    have hc : cachedBaseline opts st (getEndpointOf req) = none := by
      simp [cachedBaseline, hdc]
    cases hf : env.fetch req.pathname with
    | none =>
        have hpre := onPreHandler_update_fetch_fails opts env st req hgate1 hgate2 hgate3
          hact hm hc hf
        rw [hpre]
        exact ⟨rfl, rfl⟩
    | some o =>
        have hpre := onPreHandler_update_miss opts env st req o hgate1 hgate2 hgate3
          hact hm hstream hc hf
        rw [hpre]
        exact ⟨rfl, rfl⟩
  · intro hact hm
    have hpre := onPreHandler_delete opts env st req hgate1 hgate2 hgate3 hact hm
    rw [hpre]
  · intro hm
    have hr : isRead req.method = true := by rw [hm]; rfl
    have hu : isUpdate req.method = false := by rw [hm]; rfl
    have hd : isDelete req.method = false := by rw [hm]; rfl
    have hcr : isCreate req.method = false := by rw [hm]; rfl
    have hg1 : isDisabled (req.auditing.getD defaultRouteAuditing) = false := by
      simpa [reqAuditing] using hgate1
    simp only [onPreResponse, hg1, hgate2, hgate3, hr, hu, hd, hcr, hdc,
      Bool.not_true, Bool.false_or, Bool.or_false, Bool.false_eq_true, if_false,
      if_true, Bool.and_false, Bool.false_and, Bool.and_true, Bool.true_and]
    repeat' (first | rfl | split)

/-- C3 witness: with disableCache, a materializable PUT misses the cache,
fetches its baseline internally, and leaves the cache unchanged. -/
theorem C3_amended_disableCache_inert_witness :
    cachedBaseline optsNoCache initialState "get:/api/users/1" = none
    ∧ (onPreHandler optsNoCache envUserA initialState updateReq).state.oldValsCache
        = initialState.oldValsCache
    ∧ (onPreHandler optsNoCache envUserA initialState updateReq).fetches
        = ["/api/users/1"] := by
  have h := C3_amended_disableCache_inert optsNoCache envUserA initialState updateReq
    resp200name (by decide) (by decide) (by decide) (by decide)
  refine ⟨h.1 "get:/api/users/1", ?_, ?_⟩
  · exact (h.2.1 (by decide) (by decide) (by decide)).1
  · exact (h.2.1 (by decide) (by decide) (by decide)).2

/-- C7: a baseline cached by a successful GET and consumed (cache hit) by a
following materializable UPDATE on the same canonical read endpoint is
evicted at consumption — the update performs no internal fetch and the
entry is gone afterwards — and a second identical UPDATE with no
intervening cache write performs an internal BaselineFetcher read instead
of a cache hit. -/
theorem C7_cache_entry_consumed_once
    (opts : Options) (env : Env) (st : PluginState)
    (g u : Request) (respG : ResponseInfo) (o : Obj)
    (hdc : opts.disableCache = false)
    (hgg1 : isDisabled (reqAuditing g) = false)
    (hgg2 : isLoggedIn (getUser g) = true)
    (hgg3 : opts.isAuditable g.pathname g.method = true)
    (hgm : g.method = "get")
    (hgs : isSuccessfulResponse respG.statusCode = true)
    (hginj : g.injected = false)
    (hgid : truthy (reqIdVal g) = true)
    (hgsrc : respG.source = Payload.obj o)
    (hug1 : isDisabled (reqAuditing u) = false)
    (hug2 : isLoggedIn (getUser u) = true)
    (hug3 : opts.isAuditable u.pathname u.method = true)
    (huact : truthy (reqAuditing u).action = false)
    (hum : u.method = "put")
    (hustream : isStream u.payload = false)
    (hkey : getEndpointOf u = getEndpointOf g) :
    (onPreHandler opts env (onPreResponse opts env st g respG).state u).fetches = []
    ∧ alGet (onPreHandler opts env (onPreResponse opts env st g respG).state u).state.oldValsCache
        (getEndpointOf u) = none
    ∧ (onPreHandler opts env
        (onPreHandler opts env (onPreResponse opts env st g respG).state u).state u).fetches
        = [u.pathname] := by
  have hst1 : (onPreResponse opts env st g respG).state.oldValsCache
      = alPut st.oldValsCache (getEndpointOf g) o :=
    onPreResponse_read_caches opts env st g respG o hgg1 hgg2 hgg3 hgm hgs hginj hgid hdc hgsrc
  have hc1 : cachedBaseline opts (onPreResponse opts env st g respG).state (getEndpointOf u)
      = some o := by
    simp [cachedBaseline, hdc, hst1, hkey, alGet_alPut_self]
  have hpre2 := onPreHandler_update_hit opts env (onPreResponse opts env st g respG).state u o
    hug1 hug2 hug3 huact hum hustream hc1
  have hcgone : alGet (onPreHandler opts env (onPreResponse opts env st g respG).state u).state.oldValsCache
      (getEndpointOf u) = none := by
    rw [hpre2]
    exact alGet_alDel_self _ _
  have hc2 : cachedBaseline opts
      (onPreHandler opts env (onPreResponse opts env st g respG).state u).state
      (getEndpointOf u) = none := by
    simp [cachedBaseline, hdc, hcgone]
  refine ⟨by rw [hpre2], hcgone, ?_⟩
  cases hf : env.fetch u.pathname with
  | none =>
      have hpre3 := onPreHandler_update_fetch_fails opts env
        (onPreHandler opts env (onPreResponse opts env st g respG).state u).state u
        hug1 hug2 hug3 huact hum hc2 hf
      rw [hpre3]
  | some o2 =>
      have hpre3 := onPreHandler_update_miss opts env
        (onPreHandler opts env (onPreResponse opts env st g respG).state u).state u o2
        hug1 hug2 hug3 huact hum hustream hc2 hf
      rw [hpre3]

/-- C7 witness: a GET of /api/users/1 followed by two identical PUTs — the
first consumes the cache hit without fetching and evicts the entry, the
second must fetch. -/
theorem C7_cache_entry_consumed_once_witness :
    (onPreHandler defaultOptions envUserA
        (onPreResponse defaultOptions envUserA initialState getReq respGet200).state
        updateReq).fetches = []
    ∧ alGet (onPreHandler defaultOptions envUserA
        (onPreResponse defaultOptions envUserA initialState getReq respGet200).state
        updateReq).state.oldValsCache (getEndpointOf updateReq) = none
    ∧ (onPreHandler defaultOptions envUserA
        (onPreHandler defaultOptions envUserA
          (onPreResponse defaultOptions envUserA initialState getReq respGet200).state
          updateReq).state updateReq).fetches = ["/api/users/1"] := by
  exact C7_cache_entry_consumed_once defaultOptions envUserA initialState getReq updateReq
    respGet200 [("name", "A")] (by decide) (by decide) (by decide) (by decide) (by decide)
    (by decide) (by decide) (by decide) (by decide) (by decide) (by decide) (by decide)
    (by decide) (by decide) (by decide) (by decide)

end HapiAuditRest
